import Mathlib

/-!
# Verification of the chat backend's service and real-time session layer

Shallow embedding of the repository's data model (`users`, `chats`,
`chat_participants`, `messages` relations), its service functions
(`chatService.js`, `userService.js`), its HTTP message controller
(`chatController.js`) and its Socket.IO session layer (`socketHandler.js`),
together with theorems settling the specification's claims about them.

Database state is a record of lists of rows; timestamps (`CURRENT_TIMESTAMP`)
are modelled as a `Nat` supplied by the caller; SQL `SERIAL` ids are modelled
by explicit `next...Id` counters.  Fallible service functions return
`Except AppError`; functions whose writes can survive a failure (no
surrounding transaction) additionally return the resulting database state.
-/

namespace Jules

/-- `utils/AppError.js`: operational error carrying an HTTP status code and a
message (the `status`/`isOperational` fields are derived and carried
implicitly: every error produced by the modelled code is operational). -/
structure AppError where
  statusCode : Nat
  message : String
deriving Repr, DecidableEq

/-- Row of the `users` relation (the `password_hash` and `created_at` columns
are never read by the modelled core and are omitted). -/
structure User where
  id : Nat
  username : String
deriving Repr, DecidableEq

/-- Row of the `chats` relation. `name` is nullable. -/
structure Chat where
  id : Nat
  name : Option String
  is_group_chat : Bool
  created_at : Nat
deriving Repr, DecidableEq

/-- Row of the `messages` relation. -/
structure Message where
  id : Nat
  chat_id : Nat
  sender_id : Nat
  content : String
  created_at : Nat
deriving Repr, DecidableEq

/-- The database: the four relations of `schema.sql`.  A row of
`chat_participants` is a pair `(chat_id, user_id)`; `PRIMARY KEY (chat_id,
user_id)` makes the pair unique, which the insertion path enforces.
`nextChatId`/`nextMessageId` model the `SERIAL` id sequences. -/
structure DB where
  users : List User
  chats : List Chat
  chat_participants : List (Nat × Nat)
  messages : List Message
  nextChatId : Nat
  nextMessageId : Nat
deriving Repr, DecidableEq

/-- `SELECT ... FROM users WHERE id = $1` — first matching row. -/
def findUser? (db : DB) (userId : Nat) : Option User :=
  db.users.find? (fun u => u.id == userId)

/-- `userService.findUserById(userId, expectUser)`: returns the row if found,
otherwise throws 404 when `expectUser` and returns nothing when not. -/
def findUserById (db : DB) (userId : Nat) (expectUser : Bool) :
    Except AppError (Option User) :=
  match findUser? db userId with
  | some u => .ok (some u)
  | none =>
    if expectUser then
      .error ⟨404, s!"User with ID {userId} not found."⟩
    else
      .ok none

/-- `SELECT ... FROM chats WHERE id = $1` — first matching row. -/
def findChat? (db : DB) (chatId : Nat) : Option Chat :=
  db.chats.find? (fun c => c.id == chatId)

/-- `chatService.findChatById(chatId, expectChat)`: returns the row if found,
otherwise throws 404 when `expectChat` and returns nothing when not. -/
def findChatById (db : DB) (chatId : Nat) (expectChat : Bool) :
    Except AppError (Option Chat) :=
  match findChat? db chatId with
  | some c => .ok (some c)
  | none =>
    if expectChat then
      .error ⟨404, s!"Chat with ID {chatId} not found."⟩
    else
      .ok none

/-- `SELECT 1 FROM chat_participants WHERE user_id = $1 AND chat_id = $2`
produced at least one row. -/
def isParticipantB (db : DB) (userId chatId : Nat) : Bool :=
  db.chat_participants.contains (chatId, userId)

/-- `chats` has a row with this id (the observable behind `findChatById`). -/
def chatExistsB (db : DB) (chatId : Nat) : Bool :=
  (findChat? db chatId).isSome

/-- `chatService.checkUserInChat(userId, chatId, expectUserInChat)`: first
`findChatById(chatId, true)` (throws 404 if the chat is missing), then the
participant lookup; non-participation returns `false` or throws 403 according
to `expectUserInChat`. -/
def checkUserInChat (db : DB) (userId chatId : Nat) (expectUserInChat : Bool) :
    Except AppError Bool := do
  let _ ← findChatById db chatId true
  if isParticipantB db userId chatId then
    .ok true
  else if expectUserInChat then
    .error ⟨403, "Access denied. You are not a participant in this chat."⟩
  else
    .ok false

/-- The enriched chat shape returned by `createChat` / the chat listing and
search queries: a `chats` row plus the `other_participants` and
`all_participants` aggregates. -/
structure ChatDetails where
  id : Nat
  name : Option String
  is_group_chat : Bool
  created_at : Nat
  other_participants : List User
  all_participants : List User
deriving Repr, DecidableEq

/-- The `all_participants` aggregate: users joined through `chat_participants`
rows of this chat. -/
def participantsOf (db : DB) (chatId : Nat) : List User :=
  db.users.filter (fun u => isParticipantB db u.id chatId)

/-- The `other_participants` aggregate: participants other than the requester. -/
def otherParticipantsOf (db : DB) (chatId currentUserId : Nat) : List User :=
  db.users.filter (fun u => isParticipantB db u.id chatId && u.id != currentUserId)

/-- Enrich one `chats` row with its participant aggregates. -/
def chatDetailsOf (db : DB) (c : Chat) (currentUserId : Nat) : ChatDetails :=
  { id := c.id, name := c.name, is_group_chat := c.is_group_chat,
    created_at := c.created_at,
    other_participants := otherParticipantsOf db c.id currentUserId,
    all_participants := participantsOf db c.id }

/-- `chatService.getUserChatsWithParticipants(chatId, currentUserId)`: the
single-chat enrichment query (`WHERE c.id = $1`). -/
def getUserChatsWithParticipants (db : DB) (chatId currentUserId : Nat) :
    List ChatDetails :=
  (db.chats.filter (fun c => c.id == chatId)).map
    (fun c => chatDetailsOf db c currentUserId)

/-- The user-existence loop at the top of `createChat`: for each id,
`userService.findUserById(userId, true)` (throws 404 on the first missing
user); performs no write. -/
def validateUsers (db : DB) : List Nat → Except AppError Unit
  | [] => .ok ()
  | userId :: rest =>
    match findUserById db userId true with
    | .error e => .error e
    | .ok _ => validateUsers db rest

/-- The participant-insertion loop of `createChat`, run against the
uncommitted transaction state.  Inserting a duplicate `(chat_id, user_id)`
pair violates the composite primary key; the driver error is not an
`AppError`, so the surrounding catch block converts it to the generic 500. -/
def insertParticipants (chatId : Nat) : DB → List Nat → Except AppError DB
  | txdb, [] => .ok txdb
  | txdb, userId :: rest =>
    if txdb.chat_participants.contains (chatId, userId) then
      .error ⟨500, "Could not create chat due to a server error."⟩
    else
      insertParticipants chatId
        { txdb with chat_participants := txdb.chat_participants ++ [(chatId, userId)] }
        rest

/-- The transaction body of `chatService.createChat` (between `BEGIN` and the
post-`COMMIT` read-back): validate every user id, insert the `chats` row,
insert the `chat_participants` rows, then fetch the enriched details
(`getUserChatsWithParticipants`, a read-only query, with the JS fallback to
the bare chat row when the read-back is empty). -/
def createChatBody (db : DB) (now : Nat) (userIds : List Nat) (name : Option String)
    (isGroupChat : Bool) : Except AppError (ChatDetails × DB) := do
  let _ ← validateUsers db userIds
  let newChat : Chat :=
    { id := db.nextChatId, name := name, is_group_chat := isGroupChat, created_at := now }
  let txdb : DB := { db with chats := db.chats ++ [newChat], nextChatId := db.nextChatId + 1 }
  let txdb ← insertParticipants newChat.id txdb userIds
  let details := getUserChatsWithParticipants txdb newChat.id (userIds.headD 0)
  .ok (details.headD
    ⟨newChat.id, newChat.name, newChat.is_group_chat, newChat.created_at, [], []⟩, txdb)

/-- `chatService.createChat(userIds, name, isGroupChat)`: runs the transaction
body; on success the transaction state is committed, on any error the
transaction is rolled back, leaving the database untouched. -/
def createChat (db : DB) (now : Nat) (userIds : List Nat) (name : Option String)
    (isGroupChat : Bool) : Except AppError ChatDetails × DB :=
  match createChatBody db now userIds name isGroupChat with
  | .ok (details, txdb) => (.ok details, txdb)
  | .error e => (.error e, db)

deriving instance DecidableEq for Except

/-- The enriched message returned by `createMessage` and broadcast as
`newMessage`: the inserted `messages` row spread together with a
`sender: {id, username}` object. -/
structure MessageOut where
  id : Nat
  chat_id : Nat
  sender_id : Nat
  content : String
  created_at : Nat
  sender : User
deriving Repr, DecidableEq

/-- `chatService.createMessage(chatId, senderId, content)`: the strict guard,
then `INSERT INTO messages ... RETURNING ...`, then the sender lookup used to
enrich the returned row.  There is no transaction around the insert, so the
inserted row survives even the (unreachable under foreign-key integrity)
failure of the sender lookup; the function therefore returns the resulting
database state alongside the `Except`. -/
def createMessage (db : DB) (now : Nat) (chatId senderId : Nat) (content : String) :
    Except AppError MessageOut × DB :=
  match checkUserInChat db senderId chatId true with
  | .error e => (.error e, db)
  | .ok _ =>
    let newMessage : Message :=
      { id := db.nextMessageId, chat_id := chatId, sender_id := senderId,
        content := content, created_at := now }
    let db' : DB := { db with messages := db.messages ++ [newMessage],
                              nextMessageId := db.nextMessageId + 1 }
    match findUser? db' senderId with
    | none => (.error ⟨500, "Failed to retrieve sender details for the new message."⟩, db')
    | some senderDetails =>
      (.ok { id := newMessage.id, chat_id := newMessage.chat_id,
             sender_id := newMessage.sender_id, content := newMessage.content,
             created_at := newMessage.created_at,
             sender := ⟨senderDetails.id, senderDetails.username⟩ }, db')

/-- JS `String.prototype.trim()`: strip leading and trailing whitespace
(modelled directly over the character list so that it evaluates). -/
def jsTrim (s : String) : String :=
  ⟨((s.toList.dropWhile Char.isWhitespace).reverse.dropWhile Char.isWhitespace).reverse⟩

/-- `chatController.createMessageHandler` (POST /chats/:id/messages): parse
the path chat id (`none` models an unparseable `parseInt` result), validate
the content (missing/non-string is `none`; whitespace-only is rejected as
empty; the 2000-character cap is checked on the trimmed string), then call
`chatService.createMessage` with the trimmed content.  A 201 response carries
the created message. -/
def createMessageHandler (db : DB) (now senderId : Nat)
    (chatIdParam : Option Int) (content : Option String) :
    Except AppError MessageOut × DB :=
  match chatIdParam with
  | none => (.error ⟨400, "Invalid Chat ID in path. Must be a positive integer."⟩, db)
  | some i =>
    if i ≤ 0 then
      (.error ⟨400, "Invalid Chat ID in path. Must be a positive integer."⟩, db)
    else
      match content with
      | none => (.error ⟨400, "Message content cannot be empty."⟩, db)
      | some s =>
        if jsTrim s = "" then
          (.error ⟨400, "Message content cannot be empty."⟩, db)
        else if 2000 < (jsTrim s).length then
          (.error ⟨400, "Message content is too long (max 2000 characters)."⟩, db)
        else
          createMessage db now i.toNat senderId (jsTrim s)

/-- One live authenticated connection: the socket id together with the
`socket.user` payload attached by the auth middleware. -/
structure Conn where
  sid : Nat
  userId : Nat
  username : String
deriving Repr, DecidableEq

/-- Client→server events of `socketHandler.js`.  `chatId` fields carry the
result of `data && data.chatId ? parseInt(data.chatId, 10) : null`: `none`
models a missing/falsy/unparseable value, `some i` an integer.  A `content`
of `none` models a missing or non-string payload field, and `isTyping` of
`none` a missing or non-boolean one. -/
inductive ClientEvent
  | joinChat (chatId : Option Int)
  | leaveChat (chatId : Option Int)
  | sendMessage (chatId : Option Int) (content : Option String)
  | typing (chatId : Option Int) (isTyping : Option Bool)
  | disconnect
deriving Repr, DecidableEq

/-- Server→client events emitted by `socketHandler.js`.  Rooms are named by
`chatId.toString()` of an already-validated positive integer, so chat ids are
carried as `Nat`. -/
inductive ServerEvent
  | chatJoined (chatId : Nat) (message : String)
  | chatLeft (chatId : Nat) (message : String)
  | newMessage (msg : MessageOut)
  | userTyping (userId : Nat) (username : String) (chatId : Nat) (isTyping : Bool)
  | socketError (event : String) (message : String)
deriving Repr, DecidableEq

/-- A payload delivered to one connection (identified by socket id). -/
structure Delivery where
  target : Nat
  event : ServerEvent
deriving Repr, DecidableEq

/-- Server-side state of the session layer: the database plus the Socket.IO
adapter's room sets, modelled as a list of `(room chat id, socket id)`
memberships. -/
structure ServerState where
  db : DB
  rooms : List (Nat × Nat)
deriving Repr, DecidableEq

/-- The socket ids currently joined to the room of a chat. -/
def roomMembers (st : ServerState) (chatId : Nat) : List Nat :=
  (st.rooms.filter (fun p => p.1 == chatId)).map (fun p => p.2)

/-- `socket.join(chatId.toString())`: idempotent insertion into the room. -/
def joinRoom (rooms : List (Nat × Nat)) (chatId sid : Nat) : List (Nat × Nat) :=
  if rooms.contains (chatId, sid) then rooms else rooms ++ [(chatId, sid)]

/-- `io.to(room).emit(...)`: deliver to every member of the room (the sender
included, when joined). -/
def broadcastToRoom (st : ServerState) (chatId : Nat) (ev : ServerEvent) :
    List Delivery :=
  (roomMembers st chatId).map (fun sid => ⟨sid, ev⟩)

/-- `socket.to(room).emit(...)`: deliver to every member of the room except
the emitting socket. -/
def broadcastToRoomExcl (st : ServerState) (chatId excl : Nat) (ev : ServerEvent) :
    List Delivery :=
  ((roomMembers st chatId).filter (fun s => s != excl)).map (fun s => ⟨s, ev⟩)

/-- The shared chat-id validation of every handler:
`!chatId || isNaN(chatId) || chatId <= 0` rejects, leaving a positive `Nat`. -/
def parseChatId : Option Int → Option Nat
  | none => none
  | some i => if i ≤ 0 then none else some i.toNat

/-- The event handlers registered per connection in `socketHandler.js`.
Every error raised by the services is an operational `AppError`, so the
`socketError` message is always `error.message`.  `now` is the database
timestamp of any row inserted while handling the event. -/
def handleEvent (st : ServerState) (conn : Conn) (now : Nat) :
    ClientEvent → ServerState × List Delivery
  | .joinChat chatId =>
    match parseChatId chatId with
    | none =>
      (st, [⟨conn.sid, .socketError "joinChat" "Invalid Chat ID. Must be a positive integer."⟩])
    | some c =>
      match checkUserInChat st.db conn.userId c true with
      | .error e => (st, [⟨conn.sid, .socketError "joinChat" e.message⟩])
      | .ok _ =>
        ({ st with rooms := joinRoom st.rooms c conn.sid },
         [⟨conn.sid, .chatJoined c s!"Successfully joined chat {c}"⟩])
  | .leaveChat chatId =>
    match parseChatId chatId with
    | none => (st, [])
    | some c =>
      ({ st with rooms := st.rooms.filter (fun p => p != (c, conn.sid)) },
       [⟨conn.sid, .chatLeft c s!"Successfully left chat {c}"⟩])
  | .sendMessage chatId content =>
    match parseChatId chatId with
    | none =>
      (st, [⟨conn.sid, .socketError "sendMessage" "Invalid Chat ID. Must be a positive integer."⟩])
    | some c =>
      match content.map jsTrim with
      | none =>
        (st, [⟨conn.sid, .socketError "sendMessage" "Message content cannot be empty."⟩])
      | some cont =>
        if cont = "" then
          (st, [⟨conn.sid, .socketError "sendMessage" "Message content cannot be empty."⟩])
        else if 2000 < cont.length then
          (st, [⟨conn.sid, .socketError "sendMessage" "Message content is too long (max 2000 characters)."⟩])
        else
          match createMessage st.db now c conn.userId cont with
          | (.error e, db') =>
            ({ st with db := db' }, [⟨conn.sid, .socketError "sendMessage" e.message⟩])
          | (.ok msg, db') =>
            ({ st with db := db' }, broadcastToRoom st c (.newMessage msg))
  | .typing chatId isTyping =>
    match parseChatId chatId, isTyping with
    | some c, some t =>
      (st, broadcastToRoomExcl st c conn.sid (.userTyping conn.userId conn.username c t))
    | _, _ => (st, [])
  | .disconnect =>
    ({ st with rooms := st.rooms.filter (fun p => p.2 != conn.sid) }, [])

/-- One trace entry: the connection the event arrived on, the insertion
timestamp available while handling it, and the event itself. -/
structure TEvent where
  conn : Conn
  now : Nat
  ev : ClientEvent
deriving Repr, DecidableEq

/-- Process a trace of session events in order, accumulating deliveries. -/
def run : ServerState → List TEvent → ServerState × List Delivery
  | st, [] => (st, [])
  | st, e :: rest =>
    let r := handleEvent st e.conn e.now e.ev
    let rr := run r.1 rest
    (rr.1, r.2 ++ rr.2)

/-- The identity claim decoded from a verified access token
(the `socket.user` payload). -/
structure IdentityClaim where
  id : Nat
  username : String
deriving Repr, DecidableEq

/-- Outcome of `jwt.verify(token, JWT_SECRET)`: a decoded payload, or one of
the error classes the middleware distinguishes by `error.name`
(`TokenExpiredError`, `JsonWebTokenError`, anything else). -/
inductive VerifyOutcome
  | valid (id : Nat) (username : String)
  | tokenExpiredError
  | jsonWebTokenError
  | otherError
deriving Repr, DecidableEq

/-- `cookie.parse(...)[name]`: first cookie with the given name. -/
def lookupCookie (cookies : List (String × String)) (n : String) : Option String :=
  (cookies.find? (fun p => p.1 == n)).map (fun p => p.2)

/-- The Socket.IO authentication middleware (`io.use`): reads the cookie
header (`none` models an absent header), extracts the `accessToken` cookie,
verifies it, and either attaches the decoded claim or refuses the connection
with `next(new Error(message))`. -/
def socketAuth (verify : String → VerifyOutcome)
    (cookies : Option (List (String × String))) : Except String IdentityClaim :=
  match cookies with
  | none => .error "Authentication error: No cookies provided."
  | some cs =>
    match lookupCookie cs "accessToken" with
    | none => .error "Authentication error: Access token not found in cookies."
    | some token =>
      match verify token with
      | .valid id username => .ok ⟨id, username⟩
      | .tokenExpiredError => .error "Authentication error: Access token expired. Please refresh."
      | .jsonWebTokenError => .error "Authentication error: Invalid access token."
      | .otherError => .error "Authentication error: Could not verify token."

/-- The specification's four stable refusal-reason categories. -/
inductive AuthReason
  | noCredential
  | invalidCredential
  | expiredCredential
  | verificationUnavailable
deriving Repr, DecidableEq

/-- Classification of the middleware's refusal messages into the
specification's reason categories; distinct causes map to distinct reasons,
and the messages are fixed strings a client can match on. -/
def reasonOfAuthError (msg : String) : Option AuthReason :=
  if msg = "Authentication error: No cookies provided." then some .noCredential
  else if msg = "Authentication error: Access token not found in cookies." then some .noCredential
  else if msg = "Authentication error: Invalid access token." then some .invalidCredential
  else if msg = "Authentication error: Access token expired. Please refresh." then some .expiredCredential
  else if msg = "Authentication error: Could not verify token." then some .verificationUnavailable
  else none

/-- Lifecycle of one incoming connection: the middleware runs before the
`connection` handler, so on refusal no event handler is ever registered and
no application event is processed; on success the connection's events are
processed with the decoded claim as `socket.user`. -/
def processConnection (verify : String → VerifyOutcome)
    (cookies : Option (List (String × String))) (sid : Nat) (st : ServerState)
    (events : List (Nat × ClientEvent)) :
    Except String (ServerState × List Delivery) :=
  match socketAuth verify cookies with
  | .error msg => .error msg
  | .ok claim =>
    .ok (run st (events.map (fun e => ⟨⟨sid, claim.id, claim.username⟩, e.1, e.2⟩)))

/-- An event is a `joinChat` whose chat id validates to room `X`. -/
def isJoinTo (X : Nat) : ClientEvent → Bool
  | .joinChat chatId => parseChatId chatId == some X
  | _ => false

/-- The durable facts the strict guard checks for `(u, X)`. -/
def guardPassesB (db : DB) (u X : Nat) : Bool :=
  chatExistsB db X && isParticipantB db u X

/-- A server event is a broadcast scoped to room `X`. -/
def scopedToB (X : Nat) : ServerEvent → Bool
  | .newMessage m => m.chat_id == X
  | .userTyping _ _ c _ => c == X
  | _ => false

/-- Fixture database: alice (1) and bob (2) share the direct chat 1;
carol (3) exists but participates in no chat. -/
def dbFix : DB :=
  { users := [⟨1, "alice"⟩, ⟨2, "bob"⟩, ⟨3, "carol"⟩],
    chats := [⟨1, none, false, 0⟩],
    chat_participants := [(1, 1), (1, 2)],
    messages := [],
    nextChatId := 2,
    nextMessageId := 1 }

/-- Fixture verifier: one good token, one expired token, everything else
malformed. -/
def verifyFix : String → VerifyOutcome := fun t =>
  if t = "good" then .valid 1 "alice"
  else if t = "expired" then .tokenExpiredError
  else .jsonWebTokenError

/-- Fixture server state: alice's connection (socket 10) is joined to chat
1's room; nobody else is joined anywhere. -/
def stFix : ServerState := { db := dbFix, rooms := [(1, 10)] }

/-- Fixture trace: carol's connection (socket 30) tries to join chat 1 and is
rejected; alice then sends a message to chat 1 and types in it. -/
def traceFix : List TEvent :=
  [⟨⟨30, 3, "carol"⟩, 5, .joinChat (some 1)⟩,
   ⟨⟨10, 1, "alice"⟩, 6, .sendMessage (some 1) (some "hi")⟩,
   ⟨⟨10, 1, "alice"⟩, 7, .typing (some 1) (some true)⟩]

/-- Row shape of the `getChatMessages` query: the selected message columns
joined with the `sender: {id, username}` object (`JOIN users u ON
m.sender_id = u.id`; ids are unique, so the first matching user row is the
join partner). -/
structure MessageRow where
  id : Nat
  chat_id : Nat
  content : String
  created_at : Nat
  sender : User
deriving Repr, DecidableEq

/-- The joined row set of `getChatMessages` before ordering: the chat's
messages inner-joined to their senders. -/
def chatMessageRows (db : DB) (chatId : Nat) : List MessageRow :=
  db.messages.filterMap (fun m =>
    if m.chat_id == chatId then
      (findUser? db m.sender_id).map
        (fun u => ⟨m.id, m.chat_id, m.content, m.created_at, ⟨u.id, u.username⟩⟩)
    else none)

/-- `ORDER BY m.created_at ASC LIMIT $2 OFFSET $3`: the database may return
any permutation of the row set that is weakly sorted on `created_at` — the
relative order of rows with equal `created_at` is not constrained by the
query — and `LIMIT`/`OFFSET` slice that ordering. -/
def ValidOrderedPage (db : DB) (chatId limit offset : Nat)
    (res : List MessageRow) : Prop :=
  ∃ full : List MessageRow,
    full.Perm (chatMessageRows db chatId)
    ∧ full.Pairwise (fun a b => a.created_at ≤ b.created_at)
    ∧ res = (full.drop offset).take limit

/-- `chatService.getChatMessages(currentUserId, chatId, limit, offset)`: the
strict guard, then the paged query.  A relation, not a function, because the
order of equal-timestamp rows is left open by the SQL. -/
def GetChatMessagesRel (db : DB) (currentUserId chatId limit offset : Nat) :
    Except AppError (List MessageRow) → Prop
  | .error e => checkUserInChat db currentUserId chatId true = .error e
  | .ok rows => checkUserInChat db currentUserId chatId true = .ok true
      ∧ ValidOrderedPage db chatId limit offset rows

/-- The ordering the claim asserts: ascending `created_at` with `id` as the
tiebreak for equal timestamps. -/
def SortedByCreatedAtThenId (l : List MessageRow) : Prop :=
  l.Pairwise (fun a b => a.created_at < b.created_at
    ∨ (a.created_at = b.created_at ∧ a.id ≤ b.id))

/-- Fixture for the tiebreak counterexample: the two messages of chat 1
share `created_at = 5`. -/
def dbTie : DB :=
  { users := [⟨1, "alice"⟩],
    chats := [⟨1, none, false, 0⟩],
    chat_participants := [(1, 1)],
    messages := [⟨1, 1, 1, "m1", 5⟩, ⟨2, 1, 1, "m2", 5⟩],
    nextChatId := 2,
    nextMessageId := 3 }

/-- The joined row of `dbTie`'s first message. -/
def rowTie1 : MessageRow := ⟨1, 1, "m1", 5, ⟨1, "alice"⟩⟩

/-- The joined row of `dbTie`'s second message. -/
def rowTie2 : MessageRow := ⟨2, 1, "m2", 5, ⟨1, "alice"⟩⟩

/-- Fixture for pagination: ten messages `m1..m10` of chat 1 inserted in
order at strictly increasing timestamps. -/
def dbTen : DB :=
  { users := [⟨1, "alice"⟩],
    chats := [⟨1, none, false, 0⟩],
    chat_participants := [(1, 1)],
    messages := [⟨1, 1, 1, "m1", 1⟩, ⟨2, 1, 1, "m2", 2⟩, ⟨3, 1, 1, "m3", 3⟩,
      ⟨4, 1, 1, "m4", 4⟩, ⟨5, 1, 1, "m5", 5⟩, ⟨6, 1, 1, "m6", 6⟩,
      ⟨7, 1, 1, "m7", 7⟩, ⟨8, 1, 1, "m8", 8⟩, ⟨9, 1, 1, "m9", 9⟩,
      ⟨10, 1, 1, "m10", 10⟩],
    nextChatId := 2,
    nextMessageId := 11 }

/-- The first page (`limit = 5`, `offset = 0`) of `dbTen`'s chat 1. -/
def pageA : List MessageRow :=
  [⟨1, 1, "m1", 1, ⟨1, "alice"⟩⟩, ⟨2, 1, "m2", 2, ⟨1, "alice"⟩⟩,
   ⟨3, 1, "m3", 3, ⟨1, "alice"⟩⟩, ⟨4, 1, "m4", 4, ⟨1, "alice"⟩⟩,
   ⟨5, 1, "m5", 5, ⟨1, "alice"⟩⟩]

/-- The second page (`limit = 5`, `offset = 5`) of `dbTen`'s chat 1. -/
def pageB : List MessageRow :=
  [⟨6, 1, "m6", 6, ⟨1, "alice"⟩⟩, ⟨7, 1, "m7", 7, ⟨1, "alice"⟩⟩,
   ⟨8, 1, "m8", 8, ⟨1, "alice"⟩⟩, ⟨9, 1, "m9", 9, ⟨1, "alice"⟩⟩,
   ⟨10, 1, "m10", 10, ⟨1, "alice"⟩⟩]

/-- Case-insensitive substring check, on character lists. -/
def isSubstrCL (needle : List Char) : List Char → Bool
  | [] => needle.isEmpty
  | b :: bs => needle.isPrefixOf (b :: bs) || isSubstrCL needle bs

/-- Lowercasing of a character list (`Char.toLower` per character, as
Postgres case-folds the ASCII identifiers involved). -/
def lowerCL (l : List Char) : List Char := l.map Char.toLower

/-- One element of a compiled `LIKE`/`ILIKE` pattern: `%` (any sequence),
`_` (any single character), or a literal character (plain or produced by a
backslash escape). -/
inductive LikeTok
  | anySeq
  | anyOne
  | lit (c : Char)
deriving Repr, DecidableEq

/-- Compile a `LIKE`/`ILIKE` pattern: `%` and `_` are wildcards, a backslash
escapes the following character; a pattern ending in an unescaped backslash
is invalid (Postgres raises `LIKE pattern must not end with escape
character`), yielding `none`. -/
def parseLikePattern : List Char → Option (List LikeTok)
  | [] => some []
  | c :: rest =>
    if c = '\\' then
      match rest with
      | [] => none
      | d :: rest' => (parseLikePattern rest').map (fun ts => .lit d :: ts)
    else if c = '%' then (parseLikePattern rest).map (fun ts => .anySeq :: ts)
    else if c = '_' then (parseLikePattern rest).map (fun ts => .anyOne :: ts)
    else (parseLikePattern rest).map (fun ts => .lit c :: ts)

/-- All suffixes of a list, longest first, the empty suffix included. -/
def suffixes : List Char → List (List Char)
  | [] => [[]]
  | c :: rest => (c :: rest) :: suffixes rest

/-- Match a compiled pattern against a subject, case-insensitively (`ILIKE`
compares literal characters after case folding): `%` matches when the rest
of the pattern matches some suffix of the subject. -/
def likeMatchTok : List LikeTok → List Char → Bool
  | [], s => s.isEmpty
  | .anyOne :: ts, s =>
    match s with
    | [] => false
    | _ :: rest => likeMatchTok ts rest
  | .lit c :: ts, s =>
    match s with
    | [] => false
    | d :: rest => (Char.toLower c == Char.toLower d) && likeMatchTok ts rest
  | .anySeq :: ts, s => (suffixes s).any (fun s' => likeMatchTok ts s')

/-- ``const searchTermLike = `%${searchTerm}%`;`` — the user's term is
interpolated unescaped, so any `%`, `_` or backslash it contains stays
active in the pattern. -/
def searchTermLike (term : String) : String := "%" ++ term ++ "%"

/-- The compiled search pattern (`none` would mean an invalid pattern, which
the query would raise; the wrapping `%` makes that unreachable here). -/
def searchPatternToks (term : String) : Option (List LikeTok) :=
  parseLikePattern (searchTermLike term).toList

/-- `c.name ILIKE $2` with SQL NULL semantics: a NULL name matches nothing. -/
def chatNameMatches (c : Chat) (ts : List LikeTok) : Bool :=
  match c.name with
  | some n => likeMatchTok ts n.toList
  | none => false

/-- `u.username ILIKE $2` for the compiled search pattern. -/
def usernameMatches (ts : List LikeTok) (u : User) : Bool :=
  likeMatchTok ts u.username.toList

/-- The WHERE clause of the `searchUserChats` query, per candidate chat: the
searcher participates, and either the chat name matches, or — for a 1-on-1
chat — some participant OTHER than the searcher has a matching username
(`u_search.id != $1`), or — for a group chat — any participant (searcher
included) has a matching username. -/
def searchChatPred (db : DB) (userId : Nat) (ts : List LikeTok) (c : Chat) : Bool :=
  isParticipantB db userId c.id
  && (chatNameMatches c ts
      || (!c.is_group_chat
          && db.users.any (fun u => isParticipantB db u.id c.id && u.id != userId
              && usernameMatches ts u))
      || (c.is_group_chat
          && db.users.any (fun u => isParticipantB db u.id c.id
              && usernameMatches ts u)))

/-- The `SELECT DISTINCT` row set of the search query.  The result order
(`ORDER BY c.created_at DESC`) is not modelled: the claim is about which
chats are returned, and the `chats` relation holds distinct rows. -/
def searchMatches (db : DB) (userId : Nat) (ts : List LikeTok) : List Chat :=
  db.chats.filter (searchChatPred db userId ts)

/-- `chatService.searchUserChats(userId, searchTerm)`: validate that the
searcher exists, compile the `'%' + term + '%'` pattern (an invalid pattern
would be a database error, which the catch block turns into the generic
500), then the search query with participant enrichment. -/
def searchUserChats (db : DB) (userId : Nat) (term : String) :
    Except AppError (List ChatDetails) := do
  let _ ← findUserById db userId true
  match searchPatternToks term with
  | none => .error ⟨500, "Could not perform chat search."⟩
  | some ts => .ok ((searchMatches db userId ts).map (fun c => chatDetailsOf db c userId))

/-- The matching predicate as the claim states it: the searcher participates
and the term is a case-insensitive SUBSTRING of the chat's name or of SOME
participant's username — any participant, the searcher included, regardless
of chat kind. -/
def ClaimedSearchMatch (db : DB) (userId : Nat) (term : String) (c : Chat) : Prop :=
  isParticipantB db userId c.id = true
  ∧ (c.name.any (fun n => isSubstrCL (lowerCL term.toList) (lowerCL n.toList)) = true
     ∨ ∃ u ∈ db.users, isParticipantB db u.id c.id = true
         ∧ isSubstrCL (lowerCL term.toList) (lowerCL u.username.toList) = true)

theorem chatExistsB_true_iff (db : DB) (chatId : Nat) :
    chatExistsB db chatId = true ↔ ∃ c, findChat? db chatId = some c := by
  unfold chatExistsB
  cases h : findChat? db chatId <;> simp [Option.isSome]

theorem findChatById_strict_of_exists (db : DB) (chatId : Nat)
    (h : chatExistsB db chatId = true) :
    ∃ c, findChatById db chatId true = .ok (some c) := by
  rcases (chatExistsB_true_iff db chatId).mp h with ⟨c, hc⟩
  exact ⟨c, by simp [findChatById, hc]⟩

theorem findChatById_strict_of_missing (db : DB) (chatId : Nat)
    (h : chatExistsB db chatId = false) :
    findChatById db chatId true = .error ⟨404, s!"Chat with ID {chatId} not found."⟩ := by
  unfold chatExistsB at h
  cases hc : findChat? db chatId with
  | none => simp [findChatById, hc]
  | some c => rw [hc] at h; simp [Option.isSome] at h

theorem checkUserInChat_ok_of (db : DB) (u c : Nat)
    (hc : chatExistsB db c = true) (hp : isParticipantB db u c = true) :
    checkUserInChat db u c true = .ok true := by
  rcases findChatById_strict_of_exists db c hc with ⟨ch, hch⟩
  simp [checkUserInChat, hch, hp, Bind.bind, Except.bind]

theorem checkUserInChat_404 (db : DB) (u c : Nat)
    (hc : chatExistsB db c = false) :
    checkUserInChat db u c true = .error ⟨404, s!"Chat with ID {c} not found."⟩ := by
  have h := findChatById_strict_of_missing db c hc
  simp [checkUserInChat, h, Bind.bind, Except.bind]

theorem checkUserInChat_403 (db : DB) (u c : Nat)
    (hc : chatExistsB db c = true) (hp : isParticipantB db u c = false) :
    checkUserInChat db u c true =
      .error ⟨403, "Access denied. You are not a participant in this chat."⟩ := by
  rcases findChatById_strict_of_exists db c hc with ⟨ch, hch⟩
  simp [checkUserInChat, hch, hp, Bind.bind, Except.bind]

theorem checkUserInChat_ok_guard (db : DB) (u c : Nat) (b : Bool)
    (h : checkUserInChat db u c true = .ok b) :
    chatExistsB db c = true ∧ isParticipantB db u c = true := by
  cases hc : chatExistsB db c with
  | false => rw [checkUserInChat_404 db u c hc] at h; exact absurd h (by simp)
  | true =>
    cases hp : isParticipantB db u c with
    | false => rw [checkUserInChat_403 db u c hc hp] at h; exact absurd h (by simp)
    | true => exact ⟨rfl, rfl⟩

theorem checkUserInChat_fail_of_guard (db : DB) (u c : Nat)
    (h : guardPassesB db u c = false) :
    ∃ e, checkUserInChat db u c true = .error e := by
  unfold guardPassesB at h
  cases hc : chatExistsB db c with
  | false => exact ⟨_, checkUserInChat_404 db u c hc⟩
  | true =>
    cases hp : isParticipantB db u c with
    | false => exact ⟨_, checkUserInChat_403 db u c hc hp⟩
    | true => rw [hc, hp] at h; exact absurd h (by simp)

theorem guardPassesB_congr (db db' : DB) (u c : Nat)
    (hc : db'.chats = db.chats) (hp : db'.chat_participants = db.chat_participants) :
    guardPassesB db' u c = guardPassesB db u c := by
  unfold guardPassesB chatExistsB findChat? isParticipantB
  rw [hc, hp]

theorem createMessage_tables_invariant (db : DB) (now chatId senderId : Nat)
    (cont : String) :
    (createMessage db now chatId senderId cont).2.users = db.users
    ∧ (createMessage db now chatId senderId cont).2.chats = db.chats
    ∧ (createMessage db now chatId senderId cont).2.chat_participants
        = db.chat_participants := by
  unfold createMessage
  split
  · exact ⟨rfl, rfl, rfl⟩
  · dsimp only
    split <;> exact ⟨rfl, rfl, rfl⟩

theorem createMessage_guard_fail (db : DB) (now chatId senderId : Nat)
    (cont : String) (e : AppError)
    (h : checkUserInChat db senderId chatId true = .error e) :
    createMessage db now chatId senderId cont = (.error e, db) := by
  unfold createMessage
  rw [h]

theorem createMessage_ok (db : DB) (now chatId senderId : Nat) (cont : String)
    (senderDetails : User)
    (hc : chatExistsB db chatId = true)
    (hp : isParticipantB db senderId chatId = true)
    (hu : findUser? db senderId = some senderDetails) :
    createMessage db now chatId senderId cont =
      (.ok { id := db.nextMessageId, chat_id := chatId, sender_id := senderId,
             content := cont, created_at := now,
             sender := ⟨senderDetails.id, senderDetails.username⟩ },
       { db with messages := db.messages ++ [⟨db.nextMessageId, chatId, senderId, cont, now⟩], nextMessageId := db.nextMessageId + 1 }) := by
  have hok := checkUserInChat_ok_of db senderId chatId hc hp
  unfold createMessage
  rw [hok]
  dsimp only
  have h2 : findUser? { db with messages := db.messages ++ [⟨db.nextMessageId, chatId, senderId, cont, now⟩], nextMessageId := db.nextMessageId + 1 } senderId = some senderDetails := hu
  rw [h2]

theorem createMessage_ok_fields (db : DB) (now chatId senderId : Nat)
    (cont : String) (msg : MessageOut) (db' : DB)
    (h : createMessage db now chatId senderId cont = (.ok msg, db')) :
    msg.chat_id = chatId ∧ msg.sender_id = senderId ∧ msg.content = cont := by
  unfold createMessage at h
  split at h
  · simp at h
  · dsimp only at h
    split at h
    · simp at h
    · rw [Prod.mk.injEq] at h
      have := h.1
      simp only [Except.ok.injEq] at this
      subst this
      exact ⟨rfl, rfl, rfl⟩

theorem mem_roomMembers (st : ServerState) (X sid : Nat) :
    sid ∈ roomMembers st X ↔ (X, sid) ∈ st.rooms := by
  unfold roomMembers
  constructor
  · intro h
    rcases List.mem_map.mp h with ⟨⟨a, b⟩, hp, hb⟩
    rcases List.mem_filter.mp hp with ⟨hmem, heq⟩
    simp only [beq_iff_eq] at heq
    subst heq
    cases hb
    exact hmem
  · intro h
    exact List.mem_map.mpr ⟨(X, sid), List.mem_filter.mpr ⟨h, by simp⟩, rfl⟩

theorem mem_joinRoom (rooms : List (Nat × Nat)) (c s X sid : Nat) :
    (X, sid) ∈ joinRoom rooms c s ↔ (X, sid) ∈ rooms ∨ (X = c ∧ sid = s) := by
  unfold joinRoom
  split
  · rename_i hcon
    constructor
    · exact Or.inl
    · rintro (h | ⟨rfl, rfl⟩)
      · exact h
      · exact List.mem_of_elem_eq_true hcon
  · simp [List.mem_append, Prod.ext_iff]

theorem mem_broadcastToRoom (st : ServerState) (c : Nat) (ev : ServerEvent)
    (d : Delivery) (h : d ∈ broadcastToRoom st c ev) :
    d.target ∈ roomMembers st c ∧ d.event = ev := by
  rcases List.mem_map.mp h with ⟨s, hs, rfl⟩
  exact ⟨hs, rfl⟩

theorem mem_broadcastToRoomExcl (st : ServerState) (c excl : Nat) (ev : ServerEvent)
    (d : Delivery) (h : d ∈ broadcastToRoomExcl st c excl ev) :
    d.target ∈ roomMembers st c ∧ d.target ≠ excl ∧ d.event = ev := by
  rcases List.mem_map.mp h with ⟨s, hs, rfl⟩
  rcases List.mem_filter.mp hs with ⟨hmem, hne⟩
  simp only [bne_iff_ne, ne_eq] at hne
  exact ⟨hmem, hne, rfl⟩

theorem handleEvent_tables_invariant (st : ServerState) (conn : Conn) (now : Nat)
    (ev : ClientEvent) :
    (handleEvent st conn now ev).1.db.chats = st.db.chats
    ∧ (handleEvent st conn now ev).1.db.chat_participants = st.db.chat_participants
    ∧ (handleEvent st conn now ev).1.db.users = st.db.users := by
  cases ev with
  | joinChat chatId =>
    cases hparse : parseChatId chatId with
    | none => simp [handleEvent, hparse]
    | some c =>
      cases hchk : checkUserInChat st.db conn.userId c true with
      | error e => simp [handleEvent, hparse, hchk]
      | ok b => simp [handleEvent, hparse, hchk]
  | leaveChat chatId =>
    cases hparse : parseChatId chatId with
    | none => simp [handleEvent, hparse]
    | some c => simp [handleEvent, hparse]
  | sendMessage chatId content =>
    cases hparse : parseChatId chatId with
    | none => simp [handleEvent, hparse]
    | some c =>
      cases hcont : content.map jsTrim with
      | none => simp [handleEvent, hparse, hcont]
      | some cont =>
        by_cases h1 : cont = ""
        · simp [handleEvent, hparse, hcont, h1]
        · by_cases h2 : 2000 < cont.length
          · simp [handleEvent, hparse, hcont, h1, h2]
          · cases hcm : createMessage st.db now c conn.userId cont with
            | mk res db' =>
              have h3 := createMessage_tables_invariant st.db now c conn.userId cont
              rw [hcm] at h3
              cases res with
              | error e =>
                simp only [handleEvent, hparse, hcont, if_neg h1, if_neg h2, hcm]
                exact ⟨h3.2.1, h3.2.2, h3.1⟩
              | ok msg =>
                simp only [handleEvent, hparse, hcont, if_neg h1, if_neg h2, hcm]
                exact ⟨h3.2.1, h3.2.2, h3.1⟩
  | typing chatId isTyping =>
    cases hparse : parseChatId chatId with
    | none =>
      cases isTyping with
      | none => simp [handleEvent, hparse]
      | some t => simp [handleEvent, hparse]
    | some c =>
      cases isTyping with
      | none => simp [handleEvent, hparse]
      | some t => simp [handleEvent, hparse]
  | disconnect => exact ⟨rfl, rfl, rfl⟩

theorem step_isolated (st : ServerState) (conn : Conn) (now : Nat) (ev : ClientEvent)
    (sid X : Nat)
    (h0 : sid ∉ roomMembers st X)
    (hguard : conn.sid = sid → isJoinTo X ev = true →
      guardPassesB st.db conn.userId X = false) :
    sid ∉ roomMembers (handleEvent st conn now ev).1 X
    ∧ ∀ d ∈ (handleEvent st conn now ev).2, d.target = sid →
        scopedToB X d.event = false := by
  cases ev with
  | joinChat chatId =>
    cases hparse : parseChatId chatId with
    | none =>
      simp only [handleEvent, hparse]
      refine ⟨h0, ?_⟩
      intro d hd htar
      simp at hd
      subst hd
      rfl
    | some c =>
      cases hchk : checkUserInChat st.db conn.userId c true with
      | error e =>
        simp only [handleEvent, hparse, hchk]
        refine ⟨h0, ?_⟩
        intro d hd htar
        simp at hd
        subst hd
        rfl
      | ok b =>
        simp only [handleEvent, hparse, hchk]
        constructor
        · intro hmem
          have hx : (X, sid) ∈ joinRoom st.rooms c conn.sid :=
            (mem_roomMembers _ X sid).mp hmem
          rcases (mem_joinRoom st.rooms c conn.sid X sid).mp hx with h | ⟨hXc, hsc⟩
          · exact h0 ((mem_roomMembers st X sid).mpr h)
          · have hj : isJoinTo X (.joinChat chatId) = true := by
              simp [isJoinTo, hparse, hXc]
            have hfail := hguard hsc.symm hj
            have hgd := checkUserInChat_ok_guard st.db conn.userId c b hchk
            rw [hXc] at hfail
            rw [guardPassesB, hgd.1, hgd.2] at hfail
            exact absurd hfail (by simp)
        · intro d hd htar
          simp at hd
          subst hd
          rfl
  | leaveChat chatId =>
    cases hparse : parseChatId chatId with
    | none =>
      simp only [handleEvent, hparse]
      exact ⟨h0, by intro d hd htar; simp at hd⟩
    | some c =>
      simp only [handleEvent, hparse]
      constructor
      · intro hmem
        have hx := (mem_roomMembers _ X sid).mp hmem
        have hin : (X, sid) ∈ st.rooms := (List.mem_filter.mp hx).1
        exact h0 ((mem_roomMembers st X sid).mpr hin)
      · intro d hd htar
        simp at hd
        subst hd
        rfl
  | sendMessage chatId content =>
    cases hparse : parseChatId chatId with
    | none =>
      simp only [handleEvent, hparse]
      refine ⟨h0, ?_⟩
      intro d hd htar
      simp at hd
      subst hd
      rfl
    | some c =>
      cases hcont : content.map jsTrim with
      | none =>
        simp only [handleEvent, hparse, hcont]
        refine ⟨h0, ?_⟩
        intro d hd htar
        simp at hd
        subst hd
        rfl
      | some cont =>
        by_cases h1 : cont = ""
        · simp only [handleEvent, hparse, hcont, if_pos h1]
          refine ⟨h0, ?_⟩
          intro d hd htar
          simp at hd
          subst hd
          rfl
        · by_cases h2 : 2000 < cont.length
          · simp only [handleEvent, hparse, hcont, if_neg h1, if_pos h2]
            refine ⟨h0, ?_⟩
            intro d hd htar
            simp at hd
            subst hd
            rfl
          · cases hcm : createMessage st.db now c conn.userId cont with
            | mk res db' =>
              cases res with
              | error e =>
                simp only [handleEvent, hparse, hcont, if_neg h1, if_neg h2, hcm]
                refine ⟨h0, ?_⟩
                intro d hd htar
                simp at hd
                subst hd
                rfl
              | ok msg =>
                simp only [handleEvent, hparse, hcont, if_neg h1, if_neg h2, hcm]
                refine ⟨h0, ?_⟩
                intro d hd htar
                have hmb := mem_broadcastToRoom st c (.newMessage msg) d hd
                have hcX : c ≠ X := by
                  intro hEq
                  subst hEq
                  rw [htar] at hmb
                  exact h0 hmb.1
                have hfields := createMessage_ok_fields st.db now c conn.userId cont msg db' hcm
                rw [hmb.2]
                simp [scopedToB, hfields.1, hcX]
  | typing chatId isTyping =>
    cases hparse : parseChatId chatId with
    | none =>
      simp only [handleEvent, hparse]
      exact ⟨h0, by intro d hd htar; simp at hd⟩
    | some c =>
      cases isTyping with
      | none =>
        simp only [handleEvent, hparse]
        exact ⟨h0, by intro d hd htar; simp at hd⟩
      | some t =>
        simp only [handleEvent, hparse]
        refine ⟨h0, ?_⟩
        intro d hd htar
        have hmb := mem_broadcastToRoomExcl st c conn.sid _ d hd
        have hcX : c ≠ X := by
          intro hEq
          subst hEq
          rw [htar] at hmb
          exact h0 hmb.1
        rw [hmb.2.2]
        simp [scopedToB, hcX]
  | disconnect =>
    simp only [handleEvent]
    constructor
    · intro hmem
      have hx := (mem_roomMembers _ X sid).mp hmem
      have hin : (X, sid) ∈ st.rooms := (List.mem_filter.mp hx).1
      exact h0 ((mem_roomMembers st X sid).mpr hin)
    · intro d hd htar
      simp at hd

theorem run_isolated (trace : List TEvent) (st : ServerState) (sid X : Nat)
    (h0 : sid ∉ roomMembers st X)
    (hguard : ∀ e ∈ trace, e.conn.sid = sid → isJoinTo X e.ev = true →
      guardPassesB st.db e.conn.userId X = false) :
    sid ∉ roomMembers (run st trace).1 X
    ∧ ∀ d ∈ (run st trace).2, d.target = sid → scopedToB X d.event = false := by
  induction trace generalizing st with
  | nil =>
    refine ⟨h0, ?_⟩
    intro d hd
    simp [run] at hd
  | cons e rest ih =>
    have hstep := step_isolated st e.conn e.now e.ev sid X h0
      (fun hsid hj => hguard e (by simp) hsid hj)
    have hinv := handleEvent_tables_invariant st e.conn e.now e.ev
    have hguard' : ∀ e' ∈ rest, e'.conn.sid = sid → isJoinTo X e'.ev = true →
        guardPassesB (handleEvent st e.conn e.now e.ev).1.db e'.conn.userId X = false := by
      intro e' he' hsid hj
      rw [guardPassesB_congr st.db (handleEvent st e.conn e.now e.ev).1.db
        e'.conn.userId X hinv.1 hinv.2.1]
      exact hguard e' (List.mem_cons_of_mem _ he') hsid hj
    have hrest := ih (handleEvent st e.conn e.now e.ev).1 hstep.1 hguard'
    refine ⟨hrest.1, ?_⟩
    intro d hd htar
    simp only [run, List.mem_append] at hd
    rcases hd with h | h
    · exact hstep.2 d h htar
    · exact hrest.2 d h htar

theorem parseChatId_pos (i : Int) (hpos : 0 < i) :
    parseChatId (some i) = some i.toNat := by
  show (if i ≤ 0 then none else some i.toNat : Option Nat) = some i.toNat
  rw [if_neg (by omega)]

theorem handleEvent_send_ok (st : ServerState) (conn : Conn) (now : Nat)
    (i : Int) (content : String) (senderDetails : User)
    (hpos : 0 < i)
    (hchat : chatExistsB st.db i.toNat = true)
    (hpart : isParticipantB st.db conn.userId i.toNat = true)
    (huser : findUser? st.db conn.userId = some senderDetails)
    (hne : (jsTrim content) ≠ "")
    (hlen : (jsTrim content).length ≤ 2000) :
    handleEvent st conn now (.sendMessage (some i) (some content)) =
      ({ st with db := { st.db with messages := st.db.messages ++ [⟨st.db.nextMessageId, i.toNat, conn.userId, (jsTrim content), now⟩], nextMessageId := st.db.nextMessageId + 1 } },
       broadcastToRoom st i.toNat (.newMessage
         ⟨st.db.nextMessageId, i.toNat, conn.userId, (jsTrim content), now,
          ⟨senderDetails.id, senderDetails.username⟩⟩)) := by
  have hparse := parseChatId_pos i hpos
  have hcont : (some content).map jsTrim = some (jsTrim content) := rfl
  have hcm := createMessage_ok st.db now i.toNat conn.userId (jsTrim content)
    senderDetails hchat hpart huser
  simp only [handleEvent, hparse, hcont, if_neg hne,
    if_neg (by omega : ¬ 2000 < (jsTrim content).length), hcm]

/-- C1: the strict authorization guard (`checkUserInChat` with
`expectUserInChat = true`) succeeds — returning `true` — iff the chat exists
and a `chat_participants` row `(chatId, userId)` exists; it fails with 404
whenever the chat does not exist (regardless of the participant table), fails
with 403 whenever the chat exists but no such row does, and never succeeds
for a nonexistent chat. -/
theorem checkUserInChat_strict_characterisation (db : DB) (userId chatId : Nat) :
    (checkUserInChat db userId chatId true = .ok true ↔
      chatExistsB db chatId = true ∧ isParticipantB db userId chatId = true)
    ∧ (chatExistsB db chatId = false →
        checkUserInChat db userId chatId true =
          .error ⟨404, s!"Chat with ID {chatId} not found."⟩)
    ∧ (chatExistsB db chatId = true → isParticipantB db userId chatId = false →
        checkUserInChat db userId chatId true =
          .error ⟨403, "Access denied. You are not a participant in this chat."⟩)
    ∧ (∀ b, checkUserInChat db userId chatId true = .ok b →
        chatExistsB db chatId = true ∧ b = true) := by
  cases hc : findChat? db chatId with
  | none =>
    have hex : chatExistsB db chatId = false := by simp [chatExistsB, hc]
    refine ⟨?_, ?_, ?_, ?_⟩ <;>
      simp [checkUserInChat, findChatById, hc, hex, Bind.bind, Except.bind]
  | some c =>
    have hex : chatExistsB db chatId = true := by simp [chatExistsB, hc]
    cases hp : isParticipantB db userId chatId <;>
      refine ⟨?_, ?_, ?_, ?_⟩ <;>
        simp [checkUserInChat, findChatById, hc, hex, hp, Bind.bind, Except.bind]

/-- Witness for C1 on the fixture: the guard admits a participant of an
existing chat, rejects a non-participant with 403, and rejects a missing chat
with 404. -/
theorem checkUserInChat_strict_characterisation_witness :
    checkUserInChat dbFix 1 1 true = .ok true
    ∧ checkUserInChat dbFix 3 1 true =
        .error ⟨403, "Access denied. You are not a participant in this chat."⟩
    ∧ checkUserInChat dbFix 1 99 true =
        .error ⟨404, "Chat with ID 99 not found."⟩ := by
  refine ⟨((checkUserInChat_strict_characterisation dbFix 1 1).1).mpr (by decide),
    (checkUserInChat_strict_characterisation dbFix 3 1).2.2.1 (by decide) (by decide),
    ?_⟩
  have h := (checkUserInChat_strict_characterisation dbFix 1 99).2.1 (by decide)
  simpa using h

/-- C2: chat creation is atomic.  If `createChat` fails, the database is the
one from before the call (rollback), so — provided the attempted chat id was
fresh and every participant row referenced an existing chat — no `chats` row
with the attempted id exists afterwards and no `chat_participants` row
references it. -/
theorem createChat_atomic (db : DB) (now : Nat) (userIds : List Nat)
    (name : Option String) (isGroupChat : Bool) (e : AppError)
    (hids : ∀ c ∈ db.chats, c.id < db.nextChatId)
    (hrefs : ∀ p ∈ db.chat_participants, ∃ c ∈ db.chats, c.id = p.1)
    (hfail : (createChat db now userIds name isGroupChat).1 = .error e) :
    (createChat db now userIds name isGroupChat).2 = db
    ∧ chatExistsB (createChat db now userIds name isGroupChat).2 db.nextChatId = false
    ∧ ∀ p ∈ (createChat db now userIds name isGroupChat).2.chat_participants,
        p.1 ≠ db.nextChatId := by
  have hroll : (createChat db now userIds name isGroupChat).2 = db := by
    unfold createChat at hfail ⊢
    cases hb : createChatBody db now userIds name isGroupChat with
    | ok v =>
      obtain ⟨d, txdb⟩ := v
      rw [hb] at hfail
      simp at hfail
    | error e' => rfl
  refine ⟨hroll, ?_, ?_⟩
  · rw [hroll]
    unfold chatExistsB findChat?
    have : db.chats.find? (fun c => c.id == db.nextChatId) = none := by
      rw [List.find?_eq_none]
      intro c hc
      have := hids c hc
      simp only [beq_iff_eq]
      omega
    simp [this]
  · rw [hroll]
    intro p hp
    rcases hrefs p hp with ⟨c, hc, hcid⟩
    have := hids c hc
    omega

/-- Witness for C2: creating a chat for alice and the nonexistent user 42
fails with 404 and leaves the fixture database — in which chat id 2 would
have been allocated — without a chat 2 or any participant row for it. -/
theorem createChat_atomic_witness :
    (createChat dbFix 0 [1, 42] none false).1 = .error ⟨404, "User with ID 42 not found."⟩
    ∧ (createChat dbFix 0 [1, 42] none false).2 = dbFix
    ∧ chatExistsB (createChat dbFix 0 [1, 42] none false).2 2 = false
    ∧ ∀ p ∈ (createChat dbFix 0 [1, 42] none false).2.chat_participants, p.1 ≠ 2 := by
  have hfail : (createChat dbFix 0 [1, 42] none false).1 =
      .error ⟨404, "User with ID 42 not found."⟩ := by decide
  have h := createChat_atomic dbFix 0 [1, 42] none false
    ⟨404, "User with ID 42 not found."⟩ (by decide)
    (by decide) hfail
  exact ⟨hfail, h.1, h.2.1, h.2.2⟩

/-- C3: room isolation.  Over any trace of session events, a connection whose
socket id starts outside room `X` such that every `joinChat` request for `X`
on that socket comes from a user for whom the durable membership guard fails
(in particular, a connection that never issues `joinChat{chatId: X}` at all)
never receives a `newMessage` or `userTyping` broadcast scoped to room `X` —
even if it is joined to other rooms — and is still outside room `X` at the
end; moreover a `joinChat` rejected by the guard only emits
`socketError{event: "joinChat"}`, leaving the state (and hence room `X`'s
connection set) unchanged. -/
theorem room_isolation (st : ServerState) (trace : List TEvent) (sid X : Nat)
    (h0 : sid ∉ roomMembers st X)
    (hguard : ∀ e ∈ trace, e.conn.sid = sid → isJoinTo X e.ev = true →
      guardPassesB st.db e.conn.userId X = false) :
    (∀ d ∈ (run st trace).2, d.target = sid → scopedToB X d.event = false)
    ∧ sid ∉ roomMembers (run st trace).1 X
    ∧ (∀ conn : Conn, ∀ now : Nat, ∀ i : Int, 0 < i → i.toNat = X →
        guardPassesB st.db conn.userId X = false →
        ∃ m, handleEvent st conn now (.joinChat (some i)) =
          (st, [⟨conn.sid, .socketError "joinChat" m⟩]))
    ∧ (∀ conn : Conn, ∀ now : Nat, ∀ i : Int, 0 < i → i.toNat = X →
        guardPassesB st.db conn.userId X = false →
        conn.sid ∉ roomMembers st X →
        conn.sid ∉ roomMembers (handleEvent st conn now (.joinChat (some i))).1 X) := by
  have hiso := run_isolated trace st sid X h0 hguard
  have hrej : ∀ conn : Conn, ∀ now : Nat, ∀ i : Int, 0 < i → i.toNat = X →
      guardPassesB st.db conn.userId X = false →
      ∃ m, handleEvent st conn now (.joinChat (some i)) =
        (st, [⟨conn.sid, .socketError "joinChat" m⟩]) := by
    intro conn now i hip hix hgf
    rcases checkUserInChat_fail_of_guard st.db conn.userId X hgf with ⟨e, he⟩
    have hparse : parseChatId (some i) = some X := by
      rw [parseChatId_pos i hip, hix]
    refine ⟨e.message, ?_⟩
    simp only [handleEvent, hparse, he]
  refine ⟨hiso.2, hiso.1, hrej, ?_⟩
  intro conn now i hip hix hgf hout
  rcases hrej conn now i hip hix hgf with ⟨m, hm⟩
  rw [hm]
  exact hout

/-- Witness for C3 on the fixture: carol's socket 30 starts outside room 1,
her join of chat 1 fails the guard, and over the whole trace (a rejected
join, then alice's message and typing events in room 1) socket 30 receives no
broadcast scoped to room 1 and ends outside it. -/
theorem room_isolation_witness :
    ((30 : Nat) ∉ roomMembers stFix 1)
    ∧ (∀ e ∈ traceFix, e.conn.sid = 30 → isJoinTo 1 e.ev = true →
        guardPassesB stFix.db e.conn.userId 1 = false)
    ∧ (∀ d ∈ (run stFix traceFix).2, d.target = 30 → scopedToB 1 d.event = false)
    ∧ (30 : Nat) ∉ roomMembers (run stFix traceFix).1 1 := by
  have h0 : (30 : Nat) ∉ roomMembers stFix 1 := by decide
  have hg : ∀ e ∈ traceFix, e.conn.sid = 30 → isJoinTo 1 e.ev = true →
      guardPassesB stFix.db e.conn.userId 1 = false := by decide
  have h := room_isolation stFix traceFix 30 1 h0 hg
  exact ⟨h0, hg, h.1, h.2.1⟩

/-- C4: sending is gated by durable membership, not by room join.  For any
connection whose user is a participant of the (existing) chat, a valid
`sendMessage` persists the message via `createMessage` and broadcasts a
`newMessage` carrying the content and the sender's identity to every
connection joined to the chat's room — with no requirement that the sending
connection ever joined the room itself. -/
theorem sendMessage_gated_by_membership (st : ServerState) (conn : Conn)
    (now : Nat) (i : Int) (content : String) (senderDetails : User)
    (hpos : 0 < i)
    (hchat : chatExistsB st.db i.toNat = true)
    (hpart : isParticipantB st.db conn.userId i.toNat = true)
    (huser : findUser? st.db conn.userId = some senderDetails)
    (hne : (jsTrim content) ≠ "")
    (hlen : (jsTrim content).length ≤ 2000) :
    (handleEvent st conn now (.sendMessage (some i) (some content))).2 =
      broadcastToRoom st i.toNat (.newMessage
        ⟨st.db.nextMessageId, i.toNat, conn.userId, (jsTrim content), now,
         ⟨senderDetails.id, senderDetails.username⟩⟩)
    ∧ (handleEvent st conn now (.sendMessage (some i) (some content))).1.db.messages =
        st.db.messages ++ [⟨st.db.nextMessageId, i.toNat, conn.userId, (jsTrim content), now⟩]
    ∧ (handleEvent st conn now (.sendMessage (some i) (some content))).1.rooms = st.rooms
    ∧ ∀ s ∈ roomMembers st i.toNat,
        (⟨s, .newMessage ⟨st.db.nextMessageId, i.toNat, conn.userId, (jsTrim content), now,
          ⟨senderDetails.id, senderDetails.username⟩⟩⟩ : Delivery)
          ∈ (handleEvent st conn now (.sendMessage (some i) (some content))).2 := by
  have h := handleEvent_send_ok st conn now i content senderDetails hpos hchat
    hpart huser hne hlen
  rw [h]
  refine ⟨rfl, rfl, rfl, ?_⟩
  intro s hs
  exact List.mem_map.mpr ⟨s, hs, rfl⟩

/-- Witness for C4 on the fixture: bob's connection (socket 11) never joined
any room, yet his `sendMessage` to chat 1 succeeds, appends the trimmed
message, and delivers `newMessage` to alice's joined socket 10. -/
theorem sendMessage_gated_by_membership_witness :
    stFix.rooms = [(1, 10)]
    ∧ (handleEvent stFix ⟨11, 2, "bob"⟩ 9 (.sendMessage (some 1) (some " hi "))).2 =
        [⟨10, .newMessage ⟨1, 1, 2, "hi", 9, ⟨2, "bob"⟩⟩⟩]
    ∧ (handleEvent stFix ⟨11, 2, "bob"⟩ 9 (.sendMessage (some 1) (some " hi "))).1.db.messages =
        [⟨1, 1, 2, "hi", 9⟩] := by
  have h := sendMessage_gated_by_membership stFix ⟨11, 2, "bob"⟩ 9 1 " hi " ⟨2, "bob"⟩
    (by decide) (by decide) (by decide) (by decide) (by decide) (by decide)
  refine ⟨rfl, ?_, ?_⟩
  · rw [h.1]; rfl
  · rw [h.2.1]; rfl

/-- C5: broadcast asymmetry.  A valid `typing` event is broadcast as
`userTyping` to every connection in the room except the emitting one, which
never receives its own echo; a successful `sendMessage` broadcast excludes
nobody, so a sender joined to the room receives its own `newMessage`. -/
theorem broadcast_asymmetry (st : ServerState) (conn : Conn) (now : Nat)
    (i : Int) (t : Bool) (content : String) (senderDetails : User)
    (hpos : 0 < i) :
    ((handleEvent st conn now (.typing (some i) (some t))).1 = st
      ∧ (∀ d ∈ (handleEvent st conn now (.typing (some i) (some t))).2,
          d.target ≠ conn.sid)
      ∧ (∀ s ∈ roomMembers st i.toNat, s ≠ conn.sid →
          (⟨s, .userTyping conn.userId conn.username i.toNat t⟩ : Delivery)
            ∈ (handleEvent st conn now (.typing (some i) (some t))).2))
    ∧ (chatExistsB st.db i.toNat = true →
       isParticipantB st.db conn.userId i.toNat = true →
       findUser? st.db conn.userId = some senderDetails →
       (jsTrim content) ≠ "" → (jsTrim content).length ≤ 2000 →
       conn.sid ∈ roomMembers st i.toNat →
       (⟨conn.sid, .newMessage ⟨st.db.nextMessageId, i.toNat, conn.userId,
          (jsTrim content), now, ⟨senderDetails.id, senderDetails.username⟩⟩⟩ : Delivery)
         ∈ (handleEvent st conn now (.sendMessage (some i) (some content))).2) := by
  have hparse := parseChatId_pos i hpos
  constructor
  · simp only [handleEvent, hparse]
    refine ⟨trivial, ?_, ?_⟩
    · intro d hd
      exact (mem_broadcastToRoomExcl st i.toNat conn.sid _ d hd).2.1
    · intro s hs hne
      exact List.mem_map.mpr
        ⟨s, List.mem_filter.mpr ⟨hs, by simpa [bne_iff_ne] using hne⟩, rfl⟩
  · intro hchat hpart huser hne hlen hmem
    have h := handleEvent_send_ok st conn now i content senderDetails hpos hchat
      hpart huser hne hlen
    rw [h]
    exact List.mem_map.mpr ⟨conn.sid, hmem, rfl⟩

/-- Witness for C5 on the fixture: alice (socket 10, joined to room 1) types
in chat 1 — the only member of the room is herself, so nobody receives the
echo, and in particular she does not; when she sends " hi " instead, she
receives her own `newMessage`. -/
theorem broadcast_asymmetry_witness :
    (handleEvent stFix ⟨10, 1, "alice"⟩ 9 (.typing (some 1) (some true))).2 = []
    ∧ (⟨10, .newMessage ⟨1, 1, 1, "hi", 9, ⟨1, "alice"⟩⟩⟩ : Delivery)
        ∈ (handleEvent stFix ⟨10, 1, "alice"⟩ 9 (.sendMessage (some 1) (some " hi "))).2 := by
  have h := broadcast_asymmetry stFix ⟨10, 1, "alice"⟩ 9 1 true " hi " ⟨1, "alice"⟩
    (by decide)
  refine ⟨?_, ?_⟩
  · decide
  · exact h.2 (by decide) (by decide) (by decide) (by decide) (by decide) (by decide)

/-- C9 (implicit): a `leaveChat` whose chatId parses to a positive integer
always emits the `chatLeft{chatId, message}` confirmation to that connection,
with no membership and no chat-existence check — no hypothesis about the
database or the rooms is needed — and room state for other connections is
unchanged. -/
theorem leaveChat_unconditional (st : ServerState) (conn : Conn) (now : Nat)
    (i : Int) (hpos : 0 < i) :
    (handleEvent st conn now (.leaveChat (some i))).2 =
      [⟨conn.sid, .chatLeft i.toNat s!"Successfully left chat {i.toNat}"⟩]
    ∧ (handleEvent st conn now (.leaveChat (some i))).1.db = st.db
    ∧ (∀ p ∈ st.rooms, p.2 ≠ conn.sid →
        p ∈ (handleEvent st conn now (.leaveChat (some i))).1.rooms)
    ∧ (∀ p ∈ (handleEvent st conn now (.leaveChat (some i))).1.rooms, p ∈ st.rooms) := by
  have hparse := parseChatId_pos i hpos
  simp only [handleEvent, hparse]
  refine ⟨trivial, trivial, ?_, ?_⟩
  · intro p hp hne
    refine List.mem_filter.mpr ⟨hp, ?_⟩
    simp only [bne_iff_ne, ne_eq]
    intro h
    exact hne (congrArg Prod.snd h)
  · intro p hp
    exact (List.mem_filter.mp hp).1

/-- Witness for C9 on the fixture: carol's socket 30, which never joined
anything, leaves the nonexistent chat 99 and still receives the `chatLeft`
confirmation, while alice's room membership is untouched. -/
theorem leaveChat_unconditional_witness :
    chatExistsB stFix.db 99 = false
    ∧ (handleEvent stFix ⟨30, 3, "carol"⟩ 0 (.leaveChat (some 99))).2 =
        [⟨30, .chatLeft 99 "Successfully left chat 99"⟩]
    ∧ (handleEvent stFix ⟨30, 3, "carol"⟩ 0 (.leaveChat (some 99))).1.rooms = [(1, 10)] := by
  have h := leaveChat_unconditional stFix ⟨30, 3, "carol"⟩ 0 99 (by decide)
  refine ⟨by decide, ?_, ?_⟩
  · rw [h.1]; rfl
  · decide

theorem handleEvent_send_empty (st : ServerState) (conn : Conn) (now : Nat)
    (i : Int) (content : String) (hpos : 0 < i) (h : jsTrim content = "") :
    handleEvent st conn now (.sendMessage (some i) (some content)) =
      (st, [⟨conn.sid, .socketError "sendMessage" "Message content cannot be empty."⟩]) := by
  have hparse := parseChatId_pos i hpos
  have hcont : (some content).map jsTrim = some (jsTrim content) := rfl
  simp only [handleEvent, hparse, hcont, if_pos h]

theorem handleEvent_send_too_long (st : ServerState) (conn : Conn) (now : Nat)
    (i : Int) (content : String) (hpos : 0 < i)
    (hlen : 2000 < (jsTrim content).length) :
    handleEvent st conn now (.sendMessage (some i) (some content)) =
      (st, [⟨conn.sid, .socketError "sendMessage" "Message content is too long (max 2000 characters)."⟩]) := by
  have hne : jsTrim content ≠ "" := by
    intro he
    rw [he] at hlen
    simp at hlen
  have hparse := parseChatId_pos i hpos
  have hcont : (some content).map jsTrim = some (jsTrim content) := rfl
  simp only [handleEvent, hparse, hcont, if_neg hne, if_pos hlen]

theorem createMessage_ok_messages (db : DB) (now chatId senderId : Nat)
    (cont : String) (msg : MessageOut) (db' : DB)
    (h : createMessage db now chatId senderId cont = (.ok msg, db')) :
    db'.messages = db.messages ++ [⟨db.nextMessageId, chatId, senderId, cont, now⟩] := by
  unfold createMessage at h
  split at h
  · simp at h
  · dsimp only at h
    split at h
    · simp at h
    · rw [Prod.mk.injEq] at h
      rw [← h.2]

/-- C6: every real-time connection attempt whose credential verification
fails — missing cookie header, missing `accessToken` cookie, expired token,
invalid token, or any other verifier failure — is refused before any
application event is processed, and the refusal message classifies into one
of the four stable machine-distinguishable reasons, each failure cause
mapping to its own reason. -/
theorem handshake_refusal_reasons (verify : String → VerifyOutcome)
    (cookies : Option (List (String × String))) (sid : Nat) (st : ServerState)
    (events : List (Nat × ClientEvent)) (msg : String)
    (hfail : socketAuth verify cookies = .error msg) :
    processConnection verify cookies sid st events = .error msg
    ∧ (∃ r, reasonOfAuthError msg = some r)
    ∧ (cookies = none → reasonOfAuthError msg = some .noCredential)
    ∧ (∀ cs, cookies = some cs → lookupCookie cs "accessToken" = none →
        reasonOfAuthError msg = some .noCredential)
    ∧ (∀ cs token, cookies = some cs → lookupCookie cs "accessToken" = some token →
        verify token = .jsonWebTokenError →
        reasonOfAuthError msg = some .invalidCredential)
    ∧ (∀ cs token, cookies = some cs → lookupCookie cs "accessToken" = some token →
        verify token = .tokenExpiredError →
        reasonOfAuthError msg = some .expiredCredential)
    ∧ (∀ cs token, cookies = some cs → lookupCookie cs "accessToken" = some token →
        verify token = .otherError →
        reasonOfAuthError msg = some .verificationUnavailable) := by
  refine ⟨by simp [processConnection, hfail], ?_, ?_, ?_, ?_, ?_, ?_⟩
  · cases cookies with
    | none =>
      simp only [socketAuth, Except.error.injEq] at hfail
      subst hfail
      exact ⟨.noCredential, by decide⟩
    | some cs =>
      cases hlc : lookupCookie cs "accessToken" with
      | none =>
        simp only [socketAuth, hlc, Except.error.injEq] at hfail
        subst hfail
        exact ⟨.noCredential, by decide⟩
      | some token =>
        cases hv : verify token with
        | valid id username => simp [socketAuth, hlc, hv] at hfail
        | tokenExpiredError =>
          simp only [socketAuth, hlc, hv, Except.error.injEq] at hfail
          subst hfail
          exact ⟨.expiredCredential, by decide⟩
        | jsonWebTokenError =>
          simp only [socketAuth, hlc, hv, Except.error.injEq] at hfail
          subst hfail
          exact ⟨.invalidCredential, by decide⟩
        | otherError =>
          simp only [socketAuth, hlc, hv, Except.error.injEq] at hfail
          subst hfail
          exact ⟨.verificationUnavailable, by decide⟩
  · intro hc
    subst hc
    simp only [socketAuth, Except.error.injEq] at hfail
    subst hfail
    decide
  · intro cs hcs hlc
    subst hcs
    simp only [socketAuth, hlc, Except.error.injEq] at hfail
    subst hfail
    decide
  · intro cs token hcs hlc hv
    subst hcs
    simp only [socketAuth, hlc, hv, Except.error.injEq] at hfail
    subst hfail
    decide
  · intro cs token hcs hlc hv
    subst hcs
    simp only [socketAuth, hlc, hv, Except.error.injEq] at hfail
    subst hfail
    decide
  · intro cs token hcs hlc hv
    subst hcs
    simp only [socketAuth, hlc, hv, Except.error.injEq] at hfail
    subst hfail
    decide

/-- Witness for C6: an expired token is refused with the fixed expiry
message, no application event of the attempted trace is processed, and the
message classifies as `expired-credential`. -/
theorem handshake_refusal_reasons_witness :
    socketAuth verifyFix (some [("accessToken", "expired")]) =
      .error "Authentication error: Access token expired. Please refresh."
    ∧ processConnection verifyFix (some [("accessToken", "expired")]) 40 stFix
        [(0, .joinChat (some 1))] =
        .error "Authentication error: Access token expired. Please refresh."
    ∧ reasonOfAuthError "Authentication error: Access token expired. Please refresh." =
        some .expiredCredential := by
  have hfail : socketAuth verifyFix (some [("accessToken", "expired")]) =
      .error "Authentication error: Access token expired. Please refresh." := by decide
  have h := handshake_refusal_reasons verifyFix (some [("accessToken", "expired")])
    40 stFix [(0, .joinChat (some 1))] _ hfail
  exact ⟨hfail, h.1,
    h.2.2.2.2.2.1 [("accessToken", "expired")] "expired" rfl (by decide) (by decide)⟩

/-- C10 (implicit): message content is trimmed before validation and
persistence on both entry points.  Over the socket handler and the HTTP
controller alike: whitespace-only content is rejected as empty, the
2000-character cap is applied to the trimmed string, and on success the
persisted (and, for the socket path, broadcast) content is exactly the
submitted content with leading and trailing whitespace removed. -/
theorem content_trimmed_both_entry_points (st : ServerState) (conn : Conn)
    (db : DB) (now now2 senderId : Nat) (i : Int) (content : String)
    (senderDetails : User) (hpos : 0 < i) :
    ((jsTrim content = "" →
        handleEvent st conn now (.sendMessage (some i) (some content)) =
          (st, [⟨conn.sid, .socketError "sendMessage" "Message content cannot be empty."⟩]))
     ∧ (2000 < (jsTrim content).length →
        handleEvent st conn now (.sendMessage (some i) (some content)) =
          (st, [⟨conn.sid, .socketError "sendMessage" "Message content is too long (max 2000 characters)."⟩]))
     ∧ (jsTrim content ≠ "" → (jsTrim content).length ≤ 2000 →
        chatExistsB st.db i.toNat = true →
        isParticipantB st.db conn.userId i.toNat = true →
        findUser? st.db conn.userId = some senderDetails →
        (handleEvent st conn now (.sendMessage (some i) (some content))).1.db.messages =
            st.db.messages ++ [⟨st.db.nextMessageId, i.toNat, conn.userId, jsTrim content, now⟩]
          ∧ (handleEvent st conn now (.sendMessage (some i) (some content))).2 =
              broadcastToRoom st i.toNat (.newMessage ⟨st.db.nextMessageId, i.toNat, conn.userId, jsTrim content, now, ⟨senderDetails.id, senderDetails.username⟩⟩)))
    ∧ ((jsTrim content = "" →
        createMessageHandler db now2 senderId (some i) (some content) =
          (.error ⟨400, "Message content cannot be empty."⟩, db))
     ∧ (jsTrim content ≠ "" → 2000 < (jsTrim content).length →
        createMessageHandler db now2 senderId (some i) (some content) =
          (.error ⟨400, "Message content is too long (max 2000 characters)."⟩, db))
     ∧ (jsTrim content ≠ "" → (jsTrim content).length ≤ 2000 →
        createMessageHandler db now2 senderId (some i) (some content) =
          createMessage db now2 i.toNat senderId (jsTrim content))
     ∧ (∀ out db', createMessage db now2 i.toNat senderId (jsTrim content) = (.ok out, db') →
          out.content = jsTrim content
          ∧ db'.messages = db.messages ++ [⟨db.nextMessageId, i.toNat, senderId, jsTrim content, now2⟩])) := by
  have hipos : ¬ i ≤ 0 := by omega
  refine ⟨⟨?_, ?_, ?_⟩, ?_, ?_, ?_, ?_⟩
  · intro h
    exact handleEvent_send_empty st conn now i content hpos h
  · intro h
    exact handleEvent_send_too_long st conn now i content hpos h
  · intro hne hlen hchat hpart huser
    have h := handleEvent_send_ok st conn now i content senderDetails hpos hchat
      hpart huser hne hlen
    rw [h]
    exact ⟨rfl, rfl⟩
  · intro h
    simp only [createMessageHandler, if_neg hipos, if_pos h]
  · intro hne hlen
    simp only [createMessageHandler, if_neg hipos, if_neg hne, if_pos hlen]
  · intro hne hlen
    simp only [createMessageHandler, if_neg hipos, if_neg hne,
      if_neg (by omega : ¬ 2000 < (jsTrim content).length)]
  · intro out db' h
    exact ⟨(createMessage_ok_fields db now2 i.toNat senderId (jsTrim content)
        out db' h).2.2,
      createMessage_ok_messages db now2 i.toNat senderId (jsTrim content) out db' h⟩

/-- Witness for C10: whitespace-only socket content is rejected as empty, and
the HTTP controller persists `" hey "` as `"hey"`. -/
theorem content_trimmed_both_entry_points_witness :
    (handleEvent stFix ⟨10, 1, "alice"⟩ 3 (.sendMessage (some 1) (some "   "))) =
      (stFix, [⟨10, .socketError "sendMessage" "Message content cannot be empty."⟩])
    ∧ (createMessageHandler dbFix 4 1 (some 1) (some " hey ")).1 =
        .ok ⟨1, 1, 1, "hey", 4, ⟨1, "alice"⟩⟩ := by
  have h1 := content_trimmed_both_entry_points stFix ⟨10, 1, "alice"⟩ dbFix 3 4 1 1
    "   " ⟨1, "alice"⟩ (by decide)
  have h2 := content_trimmed_both_entry_points stFix ⟨10, 1, "alice"⟩ dbFix 3 4 1 1
    " hey " ⟨1, "alice"⟩ (by decide)
  constructor
  · exact h1.1.1 (by decide)
  · have heq := h2.2.2.2.1 (by decide) (by decide)
    rw [heq]
    decide

/-- C7 counterexample: in a chat whose two messages share `created_at = 5`,
the page `[m2, m1]` is a valid result of `getChatMessages` — the query sorts
only by `created_at`, so the reversed order of the tied rows satisfies it —
but it is not ordered by `(created_at, id)`: the SQL has no `id` tiebreak. -/
theorem getChatMessages_order_counterexample :
    GetChatMessagesRel dbTie 1 1 20 0 (.ok [rowTie2, rowTie1])
    ∧ ¬ SortedByCreatedAtThenId [rowTie2, rowTie1] := by
  constructor
  · exact ⟨by decide, [rowTie2, rowTie1], by decide, by decide, by decide⟩
  · intro h
    have h2 := List.rel_of_pairwise_cons h (List.mem_singleton.mpr rfl)
    revert h2
    decide

/-- C7 amended: every successful `getChatMessages` page is weakly ascending
on `created_at`; the relative order of messages with equal timestamps is not
enforced (no `id` tiebreak in the query).  When the chat's rows have strictly
increasing `created_at` — as for `m1..m10` inserted at distinct times — the
result is uniquely determined: `offset`/`limit` slice the rows in insertion
order, so `(limit 5, offset 0)` is `[m1..m5]` and `(limit 5, offset 5)` is
`[m6..m10]`. -/
theorem getChatMessages_order_amended (db : DB) (u c lim off : Nat)
    (rows : List MessageRow)
    (h : GetChatMessagesRel db u c lim off (.ok rows)) :
    rows.Pairwise (fun a b => a.created_at ≤ b.created_at)
    ∧ ((chatMessageRows db c).Pairwise (fun a b => a.created_at < b.created_at) →
        rows = ((chatMessageRows db c).drop off).take lim) := by
  obtain ⟨hok, full, hperm, hsort, hres⟩ := h
  constructor
  · subst hres
    exact hsort.sublist ((List.take_sublist _ _).trans (List.drop_sublist _ _))
  · intro hstrict
    have hne : (chatMessageRows db c).Pairwise
        (fun a b => a.created_at ≠ b.created_at) :=
      hstrict.imp (fun hab => Nat.ne_of_lt hab)
    have hnef : full.Pairwise (fun a b => a.created_at ≠ b.created_at) :=
      (hperm.pairwise_iff (fun hab => hab.symm)).mpr hne
    have hstrictf : full.Pairwise (fun a b => a.created_at < b.created_at) :=
      (hsort.and hnef).imp (fun hp => lt_of_le_of_ne hp.1 hp.2)
    have hanti : IsAntisymm MessageRow (fun a b => a.created_at < b.created_at) :=
      ⟨fun a b h1 h2 => (Nat.lt_asymm h1 h2).elim⟩
    have hfull : full = chatMessageRows db c :=
      @List.eq_of_perm_of_sorted MessageRow _ hanti _ _ hperm hstrictf hstrict
    rw [hres, hfull]

/-- Witness for C7's amended claim on the ten-message fixture: both pages are
valid results, the first page is weakly sorted, and — the timestamps being
strictly increasing — the pages are exactly `[m1..m5]` and `[m6..m10]`. -/
theorem getChatMessages_order_amended_witness :
    GetChatMessagesRel dbTen 1 1 5 0 (.ok pageA)
    ∧ pageA.Pairwise (fun a b => a.created_at ≤ b.created_at)
    ∧ pageA = ((chatMessageRows dbTen 1).drop 0).take 5
    ∧ GetChatMessagesRel dbTen 1 1 5 5 (.ok pageB)
    ∧ pageB = ((chatMessageRows dbTen 1).drop 5).take 5 := by
  have hA : GetChatMessagesRel dbTen 1 1 5 0 (.ok pageA) :=
    ⟨by decide, chatMessageRows dbTen 1, by decide, by decide, by decide⟩
  have hB : GetChatMessagesRel dbTen 1 1 5 5 (.ok pageB) :=
    ⟨by decide, chatMessageRows dbTen 1, by decide, by decide, by decide⟩
  have h1 := getChatMessages_order_amended dbTen 1 1 5 0 pageA hA
  have h2 := getChatMessages_order_amended dbTen 1 1 5 5 pageB hB
  exact ⟨hA, h1.1, h1.2 (by decide), hB, h2.2 (by decide)⟩

theorem likeMatchTok_anySeq_top (s : List Char) :
    likeMatchTok [.anySeq] s = true := by
  induction s with
  | nil => rfl
  | cons c cs ih =>
    have h1 : likeMatchTok [LikeTok.anySeq] (c :: cs) =
        (likeMatchTok [] (c :: cs)
          || (suffixes cs).any (fun s' => likeMatchTok [] s')) := by
      simp [likeMatchTok, suffixes]
    have h2 : (suffixes cs).any (fun s' => likeMatchTok [] s') =
        likeMatchTok [LikeTok.anySeq] cs := rfl
    rw [h1, h2, ih]
    simp [likeMatchTok]

theorem likeMatchTok_lits_anySeq (l s : List Char) :
    likeMatchTok (l.map LikeTok.lit ++ [.anySeq]) s =
      (lowerCL l).isPrefixOf (lowerCL s) := by
  induction l generalizing s with
  | nil =>
    simp only [List.map_nil, List.nil_append, likeMatchTok_anySeq_top]
    simp [lowerCL, List.isPrefixOf]
  | cons c cs ih =>
    cases s with
    | nil => simp [likeMatchTok, lowerCL, List.isPrefixOf]
    | cons d ds =>
      simp only [List.map_cons, List.cons_append, likeMatchTok, List.append_eq]
      rw [ih ds]
      simp [lowerCL, List.isPrefixOf]

theorem likeMatchTok_plain_substr (l s : List Char) :
    likeMatchTok (.anySeq :: (l.map LikeTok.lit ++ [.anySeq])) s =
      isSubstrCL (lowerCL l) (lowerCL s) := by
  induction s with
  | nil =>
    have h1 : likeMatchTok (.anySeq :: (l.map LikeTok.lit ++ [.anySeq])) [] =
        likeMatchTok (l.map LikeTok.lit ++ [.anySeq]) [] := by
      simp [likeMatchTok, suffixes]
    rw [h1, likeMatchTok_lits_anySeq]
    cases l <;> simp [lowerCL, isSubstrCL, List.isPrefixOf]
  | cons d ds ih =>
    have h1 : likeMatchTok (.anySeq :: (l.map LikeTok.lit ++ [.anySeq])) (d :: ds) =
        (likeMatchTok (l.map LikeTok.lit ++ [.anySeq]) (d :: ds)
          || (suffixes ds).any
              (fun s' => likeMatchTok (l.map LikeTok.lit ++ [.anySeq]) s')) := by
      simp [likeMatchTok, suffixes]
    have h2 : (suffixes ds).any
        (fun s' => likeMatchTok (l.map LikeTok.lit ++ [.anySeq]) s') =
        likeMatchTok (.anySeq :: (l.map LikeTok.lit ++ [.anySeq])) ds := rfl
    rw [h1, h2, ih, likeMatchTok_lits_anySeq]
    simp [lowerCL, isSubstrCL]

theorem parseLikePattern_plain_append (l : List Char)
    (hplain : ∀ c ∈ l, c ≠ '%' ∧ c ≠ '_' ∧ c ≠ '\\') :
    parseLikePattern (l ++ ['%']) = some (l.map LikeTok.lit ++ [.anySeq]) := by
  induction l with
  | nil => decide
  | cons c cs ih =>
    have hc := hplain c (by simp)
    have hrest : ∀ x ∈ cs, x ≠ '%' ∧ x ≠ '_' ∧ x ≠ '\\' :=
      fun x hx => hplain x (by simp [hx])
    have hstep : parseLikePattern (c :: (cs ++ ['%'])) =
        (parseLikePattern (cs ++ ['%'])).map (fun ts => .lit c :: ts) := by
      rw [parseLikePattern.eq_def]
      simp only
      rw [if_neg hc.2.2, if_neg hc.1, if_neg hc.2.1]
    rw [List.cons_append, hstep, ih hrest]
    rfl

theorem searchTermLike_toList (term : String) :
    (searchTermLike term).toList = '%' :: (term.toList ++ ['%']) := rfl

theorem searchPatternToks_plain (term : String)
    (hplain : ∀ ch ∈ term.toList, ch ≠ '%' ∧ ch ≠ '_' ∧ ch ≠ '\\') :
    searchPatternToks term =
      some (.anySeq :: (term.toList.map LikeTok.lit ++ [.anySeq])) := by
  unfold searchPatternToks
  rw [searchTermLike_toList]
  have hstep : parseLikePattern ('%' :: (term.toList ++ ['%'])) =
      (parseLikePattern (term.toList ++ ['%'])).map (fun ts => .anySeq :: ts) := by
    rw [parseLikePattern.eq_def]
    simp only
    rw [if_neg (by decide : ¬ ('%' : Char) = '\\')]
    simp
  rw [hstep, parseLikePattern_plain_append term.toList hplain]
  rfl

/-- C8 counterexample, refuting the claimed substring semantics in both
directions.  (1) alice searches "alice": her direct chat with bob satisfies
the claimed predicate — she is a participant and her own username has the
term as a substring — but the query's 1-on-1 branch requires a matching
participant OTHER than the searcher (`u_search.id != $1`) and the chat has
no name, so the search returns nothing.  (2) bob searches "ali_e": "ali_e"
is a substring of no name or username, so the claimed predicate excludes the
chat — but the term is interpolated into the ILIKE pattern unescaped, the
`_` wildcard matches the `c` of "alice", and the search returns the chat. -/
theorem searchUserChats_counterexample :
    (ClaimedSearchMatch dbFix 1 "alice" ⟨1, none, false, 0⟩
      ∧ (⟨1, none, false, 0⟩ : Chat) ∈ dbFix.chats
      ∧ searchUserChats dbFix 1 "alice" = .ok [])
    ∧ (¬ ClaimedSearchMatch dbFix 2 "ali_e" ⟨1, none, false, 0⟩
      ∧ searchUserChats dbFix 2 "ali_e" =
          .ok [chatDetailsOf dbFix ⟨1, none, false, 0⟩ 2]) := by
  refine ⟨⟨⟨by decide, .inr ⟨⟨1, "alice"⟩, by decide, by decide, by decide⟩⟩,
    by decide, by decide⟩, by unfold ClaimedSearchMatch; decide, by decide⟩

/-- C8 amended: for an existing searcher, `searchUserChats(U, T)` returns
exactly the chats `U` participates in that the ILIKE pattern `'%T%'` picks
out — the term is interpolated unescaped, so `%` and `_` inside `T` act as
LIKE wildcards and a backslash escapes the next character — matching,
case-insensitively, the chat's name, or for a group chat some participant's
username (`U`'s own included), or for a 1-on-1 chat the username of a
participant other than `U`; no chat `U` is not a participant of is ever
returned.  For a term free of `%`, `_` and backslash the pattern match is
exactly the case-insensitive substring test. -/
theorem searchUserChats_amended (db : DB) (userId : Nat) (term : String)
    (details : List ChatDetails)
    (hok : searchUserChats db userId term = .ok details) :
    (∃ ts, searchPatternToks term = some ts
      ∧ details = (searchMatches db userId ts).map (fun c => chatDetailsOf db c userId)
      ∧ ∀ c : Chat, c ∈ searchMatches db userId ts ↔
          (c ∈ db.chats ∧ isParticipantB db userId c.id = true
           ∧ (chatNameMatches c ts = true
              ∨ (c.is_group_chat = false ∧ ∃ u ∈ db.users,
                  isParticipantB db u.id c.id = true ∧ u.id ≠ userId
                  ∧ likeMatchTok ts u.username.toList = true)
              ∨ (c.is_group_chat = true ∧ ∃ u ∈ db.users,
                  isParticipantB db u.id c.id = true
                  ∧ likeMatchTok ts u.username.toList = true))))
    ∧ ((∀ ch ∈ term.toList, ch ≠ '%' ∧ ch ≠ '_' ∧ ch ≠ '\\') →
        searchPatternToks term =
            some (.anySeq :: (term.toList.map LikeTok.lit ++ [.anySeq]))
        ∧ ∀ s : List Char,
            likeMatchTok (.anySeq :: (term.toList.map LikeTok.lit ++ [.anySeq])) s =
              isSubstrCL (lowerCL term.toList) (lowerCL s)) := by
  constructor
  · unfold searchUserChats at hok
    cases hu : findUserById db userId true with
    | error e =>
      rw [hu] at hok
      exact absurd hok (by simp [Bind.bind, Except.bind])
    | ok v =>
      rw [hu] at hok
      simp only [Bind.bind, Except.bind] at hok
      cases hts : searchPatternToks term with
      | none =>
        rw [hts] at hok
        exact absurd hok (by simp)
      | some ts =>
        rw [hts] at hok
        simp only [Except.ok.injEq] at hok
        refine ⟨ts, rfl, hok.symm, ?_⟩
        intro c
        simp only [searchMatches, List.mem_filter, searchChatPred, usernameMatches,
          Bool.and_eq_true, Bool.or_eq_true, List.any_eq_true, Bool.not_eq_true',
          bne_iff_ne, ne_eq, and_assoc]
        constructor
        · rintro ⟨hmem, hpart, hrest⟩
          refine ⟨hmem, hpart, ?_⟩
          rcases hrest with (hname | ⟨hng, u, hu, h1, h2, h3⟩) | ⟨hg, u, hu, h1, h2⟩
          · exact .inl hname
          · exact .inr (.inl ⟨hng, u, hu, h1, h2, h3⟩)
          · exact .inr (.inr ⟨hg, u, hu, h1, h2⟩)
        · rintro ⟨hmem, hpart, hrest⟩
          refine ⟨hmem, hpart, ?_⟩
          rcases hrest with hname | ⟨hng, u, hu, h1, h2, h3⟩ | ⟨hg, u, hu, h1, h2⟩
          · exact .inl (.inl hname)
          · exact .inl (.inr ⟨hng, u, hu, h1, h2, h3⟩)
          · exact .inr ⟨hg, u, hu, h1, h2⟩
  · intro hplain
    exact ⟨searchPatternToks_plain term hplain,
      fun s => likeMatchTok_plain_substr term.toList s⟩

/-- Witness for C8's amended claim: alice searches the wildcard-free term
"bob" — its pattern compiles to literal tokens between two `%`, so it
matches exactly as a case-insensitive substring — and her direct chat with
bob is returned through bob's username (the other participant). -/
theorem searchUserChats_amended_witness :
    searchUserChats dbFix 1 "bob" = .ok [chatDetailsOf dbFix ⟨1, none, false, 0⟩ 1]
    ∧ (∃ ts, searchPatternToks "bob" = some ts
        ∧ (⟨1, none, false, 0⟩ : Chat) ∈ searchMatches dbFix 1 ts)
    ∧ likeMatchTok (.anySeq :: ("bob".toList.map LikeTok.lit ++ [.anySeq])) "Bobby".toList =
        isSubstrCL (lowerCL "bob".toList) (lowerCL "Bobby".toList) := by
  have hok : searchUserChats dbFix 1 "bob" =
      .ok [chatDetailsOf dbFix ⟨1, none, false, 0⟩ 1] := by decide
  obtain ⟨⟨ts, hts, hdet, hmem⟩, hplain⟩ :=
    searchUserChats_amended dbFix 1 "bob" [chatDetailsOf dbFix ⟨1, none, false, 0⟩ 1] hok
  refine ⟨hok, ⟨ts, hts, ?_⟩, (hplain (by decide)).2 "Bobby".toList⟩
  have hts0 : searchPatternToks "bob" =
      some [.anySeq, .lit 'b', .lit 'o', .lit 'b', .anySeq] := by decide
  have hEq : ts = [.anySeq, .lit 'b', .lit 'o', .lit 'b', .anySeq] :=
    Option.some.inj (hts.symm.trans hts0)
  subst hEq
  exact (hmem ⟨1, none, false, 0⟩).mpr (by decide)

end Jules
